import Mathlib

/-
Verification development for the vision-flex rep-counting and feedback
engine.

The engine's data (normalized keypoint coordinates, detector confidences,
millisecond timestamps) are IEEE floats in the source; they are modelled
here as exact rationals.  Every `Date.now()` read is modelled as an
explicit `now : ℚ` parameter.  JavaScript falsiness of the empty string
(`formFeedback || state.formFeedback`) is modelled by an explicit
emptiness test.  The transcendental elbow-angle computation
(`calculateAngle`, law of cosines + `Math.acos`) is abstracted as a
function parameter `ang` in the bicep-curl state machine; the angle
function itself is embedded separately over the real numbers, with
`Option ℝ` modelling the NaN results of degenerate inputs.
-/

/-- The `ExerciseState` union type from `src/unnamed/part_000`
(`'up' | 'down' | 'extended' | 'contracted'`). -/
inductive ExerciseState where
  | up
  | down
  | extended
  | contracted
deriving DecidableEq, Repr

/-- `PoseKeypoint` from `src/unnamed/part_000`: normalized position plus
detector confidence. -/
structure Keypoint where
  x : ℚ
  y : ℚ
  confidence : ℚ
deriving DecidableEq, Repr

/-- `Pose` from `src/unnamed/part_000`.  The external contract (spec §6)
fixes exactly 17 keypoints in MoveNet order, so the keypoint array is
modelled as a total function on `Fin 17`.  The `score` field is never read
by the engine and is omitted. -/
structure Pose where
  keypoints : Fin 17 → Keypoint

/-- `RepCounterState` from `src/unnamed/part_000`. -/
structure RepCounterState where
  currentState : ExerciseState
  repCount : ℕ
  lastStateChange : ℚ
  formFeedback : Option String
deriving DecidableEq, Repr

/-- The squat visibility failure condition of `processSquatRep` in
`src/app/utils/poseAnalysis.ts` (lines 57-62): any of the four hip/knee
keypoints has confidence below 0.5. -/
abbrev SquatVisibilityFails (pose : Pose) : Prop :=
  (pose.keypoints 11).confidence < 0.5 ∨ (pose.keypoints 12).confidence < 0.5 ∨
    (pose.keypoints 13).confidence < 0.5 ∨ (pose.keypoints 14).confidence < 0.5

/-- `avgHipY` of `processSquatRep` (`src/app/utils/poseAnalysis.ts` line 72). -/
def squatAvgHipY (pose : Pose) : ℚ :=
  ((pose.keypoints 11).y + (pose.keypoints 12).y) / 2

/-- `avgKneeY` of `processSquatRep` (`src/app/utils/poseAnalysis.ts` line 73). -/
def squatAvgKneeY (pose : Pose) : ℚ :=
  ((pose.keypoints 13).y + (pose.keypoints 14).y) / 2

/-- `anklesVisible` of `processSquatRep` (`src/app/utils/poseAnalysis.ts`
lines 110-111). -/
abbrev SquatAnklesVisible (pose : Pose) : Prop :=
  0.5 < (pose.keypoints 15).confidence ∧ 0.5 < (pose.keypoints 16).confidence

/-- `SQUAT_DOWN_THRESHOLD` (`src/app/utils/poseAnalysis.ts` line 106). -/
def SQUAT_DOWN_THRESHOLD : ℚ := 0.05

/-- `SQUAT_UP_THRESHOLD` (`src/app/utils/poseAnalysis.ts` line 107). -/
def SQUAT_UP_THRESHOLD : ℚ := 0.02

/-- Embedding of `processSquatRep` from `src/app/utils/poseAnalysis.ts`
(lines 37-167, the basic variant).  The local `timeSinceLastChange` /
`timeSinceLastFeedback` values (both `now - state.lastStateChange`) are
inlined at their use sites; the imperatively reassigned local
`formFeedback` string is threaded functionally (empty string = "no
feedback produced this frame", as in the source, where `''` is falsy). -/
def processSquatRep (pose : Pose) (state : RepCounterState) (now : ℚ) :
    RepCounterState :=
  if SquatVisibilityFails pose then
    { state with
      formFeedback := some "Position yourself so your hips and knees are visible" }
  else
    let avgHipY := squatAvgHipY pose
    let avgKneeY := squatAvgKneeY pose
    let kneeWidth := |(pose.keypoints 13).x - (pose.keypoints 14).x|
    if now - state.lastStateChange < 800 then state
    else
      let fb0 : String :=
        if kneeWidth < 0.08 ∧ 3000 < now - state.lastStateChange then
          "Keep your knees aligned with your feet, slightly wider stance"
        else ""
      let res : ExerciseState × ℕ × String :=
        if state.currentState = ExerciseState.up ∧
            avgKneeY + SQUAT_DOWN_THRESHOLD < avgHipY then
          let fbDown : String :=
            if SquatAnklesVisible pose ∧ 3000 < now - state.lastStateChange then
              let avgAnkleY := ((pose.keypoints 15).y + (pose.keypoints 16).y) / 2
              let hipToAnkleQuotient := (avgHipY - avgAnkleY) / (avgKneeY - avgAnkleY)
              if hipToAnkleQuotient < 0.7 then
                "Try to squat deeper, aim for thighs parallel to ground"
              else "Good depth! Hold for a moment at the bottom"
            else fb0
          (ExerciseState.down, state.repCount, fbDown)
        else if state.currentState = ExerciseState.down ∧
            avgHipY < avgKneeY - SQUAT_UP_THRESHOLD then
          (ExerciseState.up, state.repCount + 1,
            "Good! Keep your back straight for the next rep")
        else
          let fbMid : String :=
            if 3000 < now - state.lastStateChange then
              if state.currentState = ExerciseState.up ∧ avgKneeY - 0.03 < avgHipY then
                "Begin lowering into your squat, keep chest up"
              else if state.currentState = ExerciseState.down then
                "Push through your heels to stand back up"
              else fb0
            else fb0
          (state.currentState, state.repCount, fbMid)
      { currentState := res.1
        repCount := res.2.1
        lastStateChange := if res.1 ≠ state.currentState then now else state.lastStateChange
        formFeedback := if res.2.2 ≠ "" then some res.2.2 else state.formFeedback }

/-- `leftArmVisible` of `processBicepCurlRep`
(`src/app/utils/poseAnalysis.ts` lines 193-196): shoulder, elbow and wrist
of the left arm all above confidence 0.5. -/
abbrev CurlLeftArmVisible (pose : Pose) : Prop :=
  0.5 < (pose.keypoints 5).confidence ∧ 0.5 < (pose.keypoints 7).confidence ∧
    0.5 < (pose.keypoints 9).confidence

/-- `rightArmVisible` of `processBicepCurlRep`
(`src/app/utils/poseAnalysis.ts` lines 198-201). -/
abbrev CurlRightArmVisible (pose : Pose) : Prop :=
  0.5 < (pose.keypoints 6).confidence ∧ 0.5 < (pose.keypoints 8).confidence ∧
    0.5 < (pose.keypoints 10).confidence

/-- `leftAngle` of `processBicepCurlRep` (`src/app/utils/poseAnalysis.ts`
lines 211-213): the elbow angle of the left arm when visible, the 999
sentinel otherwise.  `ang` abstracts `calculateAngle`. -/
def curlLeftAngle (ang : Keypoint → Keypoint → Keypoint → ℚ) (pose : Pose) : ℚ :=
  if CurlLeftArmVisible pose then
    ang (pose.keypoints 5) (pose.keypoints 7) (pose.keypoints 9)
  else 999

/-- `rightAngle` of `processBicepCurlRep` (`src/app/utils/poseAnalysis.ts`
lines 214-216). -/
def curlRightAngle (ang : Keypoint → Keypoint → Keypoint → ℚ) (pose : Pose) : ℚ :=
  if CurlRightArmVisible pose then
    ang (pose.keypoints 6) (pose.keypoints 8) (pose.keypoints 10)
  else 999

/-- `primaryAngle` of `processBicepCurlRep`
(`src/app/utils/poseAnalysis.ts` lines 219-232): the more-bent of two
visible arms, else the single visible arm's angle. -/
def curlPrimaryAngle (ang : Keypoint → Keypoint → Keypoint → ℚ) (pose : Pose) : ℚ :=
  if CurlLeftArmVisible pose ∧ CurlRightArmVisible pose then
    min (curlLeftAngle ang pose) (curlRightAngle ang pose)
  else if CurlLeftArmVisible pose then curlLeftAngle ang pose
  else curlRightAngle ang pose

/-- `CONTRACTED_ANGLE` (`src/app/utils/poseAnalysis.ts` line 273). -/
def CONTRACTED_ANGLE : ℚ := 80

/-- `EXTENDED_ANGLE` (`src/app/utils/poseAnalysis.ts` line 274). -/
def EXTENDED_ANGLE : ℚ := 140

/-- Embedding of `processBicepCurlRep` from `src/app/utils/poseAnalysis.ts`
(lines 172-320, the basic variant).  The real-valued `calculateAngle`
computation is abstracted as the parameter `ang`; all theorems quantify
over it.  The `activeArm` local is only used for the elbow-position
feedback selection, which the source derives from `leftArmVisible`
directly (lines 261-263). -/
def processBicepCurlRep (ang : Keypoint → Keypoint → Keypoint → ℚ)
    (pose : Pose) (state : RepCounterState) (now : ℚ) : RepCounterState :=
  if ¬CurlLeftArmVisible pose ∧ ¬CurlRightArmVisible pose then
    { state with formFeedback := some "Position yourself so your arms are visible" }
  else
    let primaryAngle := curlPrimaryAngle ang pose
    if now - state.lastStateChange < 500 then state
    else
      let fb0 : String :=
        if 3000 < now - state.lastStateChange then
          let fbSync : String :=
            if CurlLeftArmVisible pose ∧ CurlRightArmVisible pose ∧
                30 < |curlLeftAngle ang pose - curlRightAngle ang pose| then
              "Try to keep both arms moving at the same pace"
            else ""
          if CurlLeftArmVisible pose ∨ CurlRightArmVisible pose then
            let elbow := if CurlLeftArmVisible pose then pose.keypoints 7 else pose.keypoints 8
            let shoulder := if CurlLeftArmVisible pose then pose.keypoints 5 else pose.keypoints 6
            if 0.15 < |elbow.x - shoulder.x| then "Keep your elbow close to your body"
            else fbSync
          else fbSync
        else ""
      let res : ExerciseState × ℕ × String :=
        if state.currentState = ExerciseState.extended ∧ primaryAngle < CONTRACTED_ANGLE then
          let fbTop : String :=
            if primaryAngle < 40 ∧ 3000 < now - state.lastStateChange then
              "Good contraction! Hold briefly at the top"
            else fb0
          (ExerciseState.contracted, state.repCount, fbTop)
        else if state.currentState = ExerciseState.contracted ∧ EXTENDED_ANGLE < primaryAngle then
          (ExerciseState.extended, state.repCount + 1,
            "Good extension! Control the downward movement")
        else
          let fbMid : String :=
            if 3000 < now - state.lastStateChange then
              if state.currentState = ExerciseState.extended ∧ primaryAngle < 110 then
                "Continue curling upward"
              else if state.currentState = ExerciseState.contracted ∧ 100 < primaryAngle then
                "Slowly lower your arm"
              else fb0
            else fb0
          (state.currentState, state.repCount, fbMid)
      { currentState := res.1
        repCount := res.2.1
        lastStateChange := if res.1 ≠ state.currentState then now else state.lastStateChange
        formFeedback := if res.2.2 ≠ "" then some res.2.2 else none }

/-- `SQUAT_DOWN_THRESHOLD` of the lenient squat variant
(`src/app/utils/poseAnalysis/processSquatRep.ts` line 152). -/
def LOOSE_SQUAT_DOWN_THRESHOLD : ℚ := 0.02

/-- `SQUAT_UP_THRESHOLD` of the lenient squat variant
(`src/app/utils/poseAnalysis/processSquatRep.ts` line 153). -/
def LOOSE_SQUAT_UP_THRESHOLD : ℚ := 0.01

/-- The confidence-weighted `avgHipY` of the lenient squat variant
(`src/app/utils/poseAnalysis/processSquatRep.ts` lines 75-86). -/
def looseAvgHipY (pose : Pose) : ℚ :=
  let leftHipWeight := max 0.1 (pose.keypoints 11).confidence
  let rightHipWeight := max 0.1 (pose.keypoints 12).confidence
  ((pose.keypoints 11).y * leftHipWeight + (pose.keypoints 12).y * rightHipWeight) /
    (leftHipWeight + rightHipWeight)

/-- The confidence-weighted `avgKneeY` of the lenient squat variant
(`src/app/utils/poseAnalysis/processSquatRep.ts` lines 79-89). -/
def looseAvgKneeY (pose : Pose) : ℚ :=
  let leftKneeWeight := max 0.1 (pose.keypoints 13).confidence
  let rightKneeWeight := max 0.1 (pose.keypoints 14).confidence
  ((pose.keypoints 13).y * leftKneeWeight + (pose.keypoints 14).y * rightKneeWeight) /
    (leftKneeWeight + rightKneeWeight)

/-- Embedding of `processSquatRep` from
`src/app/utils/poseAnalysis/processSquatRep.ts` (the lenient
partial-squat variant; renamed `...Loose` to coexist with the
`poseAnalysis.ts` version).  Both `Date.now()` reads (`timeCheck`, `now`)
are modelled as the same `now`.  The `isNaN`/`try-catch` sanity checks
cannot fire in exact rational arithmetic (total weights are at least 0.2),
so `hasReliablePositions` reduces to the `avgHipY <= 0 || avgKneeY <= 0`
test; the source's neutral fallback values (0.5/0.6) are unreachable
because the unreliable path returns `state` before any transition. -/
def processSquatRepLoose (pose : Pose) (state : RepCounterState) (now : ℚ) :
    RepCounterState :=
  let leftPointsVisible : ℕ :=
    (if 0.3 < (pose.keypoints 11).confidence then 1 else 0) +
      (if 0.3 < (pose.keypoints 13).confidence then 1 else 0) +
      (if 0.3 < (pose.keypoints 15).confidence then 1 else 0)
  let rightPointsVisible : ℕ :=
    (if 0.3 < (pose.keypoints 12).confidence then 1 else 0) +
      (if 0.3 < (pose.keypoints 14).confidence then 1 else 0) +
      (if 0.3 < (pose.keypoints 16).confidence then 1 else 0)
  if ¬2 ≤ leftPointsVisible ∧ ¬2 ≤ rightPointsVisible ∧
      3000 < now - state.lastStateChange then
    { state with
      formFeedback := some "Position yourself so your hips and knees are visible" }
  else
    let avgHipY := looseAvgHipY pose
    let avgKneeY := looseAvgKneeY pose
    let kneeWidth :=
      if 0.3 < (pose.keypoints 13).confidence ∧ 0.3 < (pose.keypoints 14).confidence then
        |(pose.keypoints 13).x - (pose.keypoints 14).x|
      else 0.15
    if now - state.lastStateChange < 800 then state
    else
      let fb0 : String :=
        if ¬(avgHipY ≤ 0 ∨ avgKneeY ≤ 0) ∧ kneeWidth < 0.08 ∧
            3000 < now - state.lastStateChange then
          "Keep your knees aligned with your feet, slightly wider stance"
        else ""
      if avgHipY ≤ 0 ∨ avgKneeY ≤ 0 then state
      else
        let res : ExerciseState × ℕ × String :=
          if state.currentState = ExerciseState.up ∧
              (avgKneeY + LOOSE_SQUAT_DOWN_THRESHOLD < avgHipY ∨
                (avgKneeY - 0.02 < avgHipY ∧ avgHipY < avgKneeY + 0.01)) then
            let fbDown : String :=
              if 0.3 < (pose.keypoints 15).confidence ∧
                  0.3 < (pose.keypoints 16).confidence ∧
                  3000 < now - state.lastStateChange then
                let leftAnkleWeight := max 0.1 (pose.keypoints 15).confidence
                let rightAnkleWeight := max 0.1 (pose.keypoints 16).confidence
                let avgAnkleY :=
                  ((pose.keypoints 15).y * leftAnkleWeight +
                    (pose.keypoints 16).y * rightAnkleWeight) /
                    (leftAnkleWeight + rightAnkleWeight)
                if 0.01 < |avgKneeY - avgAnkleY| then
                  let hipToAnkleQuotient := (avgHipY - avgAnkleY) / (avgKneeY - avgAnkleY)
                  if hipToAnkleQuotient < 0.5 then "Excellent depth! Great form!"
                  else if hipToAnkleQuotient < 0.7 then
                    "Good depth! Hold for a moment at the bottom"
                  else "Good! Go as deep as comfortable for you"
                else fb0
              else fb0
            (ExerciseState.down, state.repCount, fbDown)
          else if state.currentState = ExerciseState.down ∧
              (avgHipY < avgKneeY - LOOSE_SQUAT_UP_THRESHOLD ∨ avgHipY < avgKneeY + 0.01) then
            (ExerciseState.up, state.repCount + 1,
              "Good! Keep your back straight for the next rep")
          else
            let fbMid : String :=
              if ¬(avgHipY ≤ 0 ∨ avgKneeY ≤ 0) ∧ 3000 < now - state.lastStateChange then
                if state.currentState = ExerciseState.up ∧ avgKneeY - 0.05 < avgHipY then
                  "Begin lowering into your squat, keep chest up"
                else if state.currentState = ExerciseState.down ∧
                    2000 < now - state.lastStateChange then
                  "Push through your heels to stand back up"
                else fb0
              else fb0
            (state.currentState, state.repCount, fbMid)
        { currentState := res.1
          repCount := res.2.1
          lastStateChange := if res.1 ≠ state.currentState then now else state.lastStateChange
          formFeedback := if res.2.2 ≠ "" then some res.2.2 else state.formFeedback }

/-- `FeedbackPriority` from `src/unnamed/part_000` (enhanced variant):
`'critical' | 'important' | 'helpful' | 'encouragement'`. -/
inductive FeedbackPriority where
  | critical
  | important
  | helpful
  | encouragement
deriving DecidableEq, Repr

/-- `PRIORITY_LEVELS` from `src/app/utils/feedbackManager.ts` (lines
10-15): higher number = higher priority. -/
def PRIORITY_LEVELS : FeedbackPriority → ℕ
  | .critical => 4
  | .important => 3
  | .helpful => 2
  | .encouragement => 1

/-- `DEFAULT_MIN_DURATION` from `src/app/utils/feedbackManager.ts`
(lines 20-25), in milliseconds. -/
def DEFAULT_MIN_DURATION : FeedbackPriority → ℚ
  | .critical => 3000
  | .important => 2500
  | .helpful => 2000
  | .encouragement => 1500

/-- `FormFeedback` (enhanced variant).  `minDisplayDuration` is an
optional field in the source (`minDisplayDuration?: number`). -/
structure FormFeedback where
  message : String
  priority : FeedbackPriority
  timestamp : ℚ
  minDisplayDuration : Option ℚ
deriving DecidableEq, Repr

/-- The `feedback.minDisplayDuration || DEFAULT_MIN_DURATION[feedback.priority]`
fallback used by `shouldUpdateFeedback` (lines 132-134) and
`shouldExpireFeedback` (lines 229-231): an absent or zero (falsy) stored
duration falls back to the priority's default. -/
def effectiveMinDuration (feedback : FormFeedback) : ℚ :=
  match feedback.minDisplayDuration with
  | some d => if d ≠ 0 then d else DEFAULT_MIN_DURATION feedback.priority
  | none => DEFAULT_MIN_DURATION feedback.priority

/-- `createFeedback` from `src/app/utils/feedbackManager.ts` (lines
104-116); `now` models the `Date.now()` read, and the optional
`minDisplayDuration` argument's falsy-default (`||`) is explicit. -/
def createFeedback (message : String) (priority : FeedbackPriority)
    (minDisplayDuration : Option ℚ) (now : ℚ) : FormFeedback :=
  { message := message
    priority := priority
    timestamp := now
    minDisplayDuration :=
      some (match minDisplayDuration with
        | some d => if d ≠ 0 then d else DEFAULT_MIN_DURATION priority
        | none => DEFAULT_MIN_DURATION priority) }

/-- `shouldUpdateFeedback` from `src/app/utils/feedbackManager.ts` (lines
121-151).  The `minFeedbackInterval` parameter defaults to 1000 at the
source's call sites. -/
def shouldUpdateFeedback (currentFeedback : Option FormFeedback)
    (newFeedback : FormFeedback) (minFeedbackInterval : ℚ) (now : ℚ) : Bool :=
  match currentFeedback with
  | none => true
  | some cur =>
    let timeSinceLastFeedback := now - cur.timestamp
    if timeSinceLastFeedback < effectiveMinDuration cur then false
    else if timeSinceLastFeedback < minFeedbackInterval then false
    else decide (PRIORITY_LEVELS cur.priority ≤ PRIORITY_LEVELS newFeedback.priority)

/-- `shouldExpireFeedback` from `src/app/utils/feedbackManager.ts` (lines
221-234).  The `maxFeedbackAge` parameter defaults to 5000 at the
source's call sites. -/
def shouldExpireFeedback (feedback : Option FormFeedback)
    (maxFeedbackAge : ℚ) (now : ℚ) : Bool :=
  match feedback with
  | none => false
  | some f => decide (max (effectiveMinDuration f) maxFeedbackAge < now - f.timestamp)

/-- `getFormFeedback` from the enhanced `useRepCounting` hook
(`src/unnamed/part_005`, lines 112-125), with `enableEnhancedFeedback`
at its default `true`: if the enhanced active feedback has expired the
query reports `null`, otherwise it reports the plain rep-state feedback
string. -/
def getFormFeedback (activeFeedback : Option FormFeedback)
    (repFormFeedback : Option String) (now : ℚ) : Option String :=
  match activeFeedback with
  | some f => if shouldExpireFeedback (some f) 5000 now then none else repFormFeedback
  | none => repFormFeedback

/-- The `Exercise` catalog record (`src/unnamed/part_000`); only the
fields the session controller reads are modelled. -/
structure Exercise where
  id : String
  name : String
  initialState : ExerciseState
deriving DecidableEq, Repr

/-- `EnhancedRepCounterState` (enhanced variant): the plain
`RepCounterState` fields plus the feedback-manager bookkeeping kept in
`enhancedStateRef` of `src/unnamed/part_005`. -/
structure EnhancedRepCounterState where
  currentState : ExerciseState
  repCount : ℕ
  lastStateChange : ℚ
  formFeedback : Option String
  activeFeedback : Option FormFeedback
  feedbackHistory : List FormFeedback
  lastFeedbackChange : ℚ
deriving DecidableEq, Repr

/-- `resetCounter` from the enhanced `useRepCounting` hook
(`src/unnamed/part_005`, lines 152-170): reinitializes the rep state from
`exercise.initialState` and clears the enhanced feedback bookkeeping.
`now` models the `Date.now()` reads.  (The basic hook in
`src/unnamed/part_004` resets the same four plain fields.) -/
def resetCounter (exercise : Exercise) (now : ℚ) : EnhancedRepCounterState :=
  { currentState := exercise.initialState
    repCount := 0
    lastStateChange := now
    formFeedback := none
    activeFeedback := none
    feedbackHistory := []
    lastFeedbackChange := now }

/-- `processFrame` from the `useRepCounting` hooks (`src/unnamed/part_004`
lines 29-57 and `src/unnamed/part_005` lines 55-110): no-op on an empty
pose list, otherwise the first pose is dispatched on the exercise id
(`'squats'` / `'bicep-curls'`), any other id leaving the state unchanged. -/
def processFrame (ang : Keypoint → Keypoint → Keypoint → ℚ) (exerciseId : String)
    (poses : List Pose) (currentRepState : RepCounterState) (now : ℚ) :
    RepCounterState :=
  match poses with
  | [] => currentRepState
  | pose :: _ =>
    if exerciseId = "squats" then processSquatRep pose currentRepState now
    else if exerciseId = "bicep-curls" then processBicepCurlRep ang pose currentRepState now
    else currentRepState

/-- A sequence of frames fed to the squat machine: each frame is a pose
together with its `Date.now()` timestamp. -/
def runSquat (frames : List (Pose × ℚ)) (state : RepCounterState) : RepCounterState :=
  frames.foldl (fun s f => processSquatRep f.1 s f.2) state

/-- A sequence of frames fed to the bicep-curl machine. -/
def runCurl (ang : Keypoint → Keypoint → Keypoint → ℚ) (frames : List (Pose × ℚ))
    (state : RepCounterState) : RepCounterState :=
  frames.foldl (fun s f => processBicepCurlRep ang f.1 s f.2) state

/-- A 2D point as consumed by `calculateAngle` (the `{x, y}` projection of
a keypoint), over exact reals. -/
structure PointR where
  x : ℝ
  y : ℝ

/-- The `Math.sqrt(Math.pow(dx, 2) + Math.pow(dy, 2))` sub-expressions of
`calculateAngle` (`src/app/utils/poseAnalysis.ts` lines 15-26). -/
noncomputable def pointDist (p q : PointR) : ℝ :=
  Real.sqrt ((p.x - q.x) ^ 2 + (p.y - q.y) ^ 2)

/-- Embedding of `calculateAngle` from `src/app/utils/poseAnalysis.ts`
(lines 10-32) over exact reals.  `none` models the IEEE NaN result:
`Math.acos` returns NaN exactly when its argument is NaN/±infinity (the
denominator `2*a*c` is zero) or falls outside `[-1, 1]`. -/
noncomputable def calculateAngle (point1 point2 point3 : PointR) : Option ℝ :=
  let a := pointDist point2 point3
  let b := pointDist point1 point3
  let c := pointDist point1 point2
  if 2 * a * c = 0 then none
  else if 1 < |(a ^ 2 + c ^ 2 - b ^ 2) / (2 * a * c)| then none
  else some (Real.arccos ((a ^ 2 + c ^ 2 - b ^ 2) / (2 * a * c)) * 180 / Real.pi)

/-- The caller-side sanitization of the elbow angle in the defensive
bicep-curl variant (`src/app/utils/poseAnalysis/processBicepCurlRep.ts`
lines 111-139): a NaN (`none`) or out-of-range result is replaced by the
999 "unreliable" sentinel, which that machine's `hasReliableAngle` test
then excludes from state transitions. -/
noncomputable def sanitizedArmAngle (point1 point2 point3 : PointR) : ℝ :=
  match calculateAngle point1 point2 point3 with
  | none => 999
  | some v => if v < 0 ∨ 180 < v then 999 else v

/-- A keypoint position as a point of the Euclidean plane, connecting the
coordinate arithmetic of `calculateAngle` to Mathlib's Euclidean
geometry. -/
noncomputable def toE (p : PointR) : EuclideanSpace ℝ (Fin 2) := ![p.x, p.y]

/-- A concrete fully-visible test pose (confidence 0.9 everywhere): hips at
height 0.5, knees at height 0.5 (hip-knee difference 0, inside the squat
hysteresis gap), knees spread at x = 0.4 / 0.6, everything else at
(0.5, 0.5). -/
def poseGap : Pose :=
  ⟨fun i =>
    if i = 13 then ⟨0.4, 0.5, 0.9⟩
    else if i = 14 then ⟨0.6, 0.5, 0.9⟩
    else ⟨0.5, 0.5, 0.9⟩⟩

/-- A concrete fully-visible deep-squat pose: hips at height 0.9, knees at
0.5, ankles at 0.95. -/
def poseDeep : Pose :=
  ⟨fun i =>
    if i = 11 ∨ i = 12 then ⟨0.5, 0.9, 0.9⟩
    else if i = 13 then ⟨0.4, 0.5, 0.9⟩
    else if i = 14 then ⟨0.6, 0.5, 0.9⟩
    else if i = 15 ∨ i = 16 then ⟨0.5, 0.95, 0.9⟩
    else ⟨0.5, 0.5, 0.9⟩⟩

/-- A concrete pose whose every keypoint has confidence 0.1 (below every
visibility threshold) but whose geometry (hips at 0.9, knees at 0.5) would
read as a deep squat if it were trusted. -/
def poseInvisible : Pose :=
  ⟨fun i =>
    if i = 11 ∨ i = 12 then ⟨0.5, 0.9, 0.1⟩
    else if i = 13 then ⟨0.4, 0.5, 0.1⟩
    else if i = 14 then ⟨0.6, 0.5, 0.1⟩
    else ⟨0.5, 0.5, 0.1⟩⟩

/-- A concrete fully-visible pose with hips at height 0.505 and knees at
0.5: its hip-knee difference 0.005 lies strictly inside the lenient squat
variant's threshold gap (-0.01, 0.02). -/
def poseShallow : Pose :=
  ⟨fun i =>
    if i = 11 ∨ i = 12 then ⟨0.5, 0.505, 0.9⟩
    else if i = 13 then ⟨0.4, 0.5, 0.9⟩
    else if i = 14 then ⟨0.6, 0.5, 0.9⟩
    else ⟨0.5, 0.5, 0.9⟩⟩

/-- The squat start state: standing (`up`), no reps, last state change at
time 0, no feedback. -/
def stUp : RepCounterState :=
  { currentState := ExerciseState.up, repCount := 0, lastStateChange := 0,
    formFeedback := none }

/-- A squat state carrying a previously displayed feedback string. -/
def stUpFb : RepCounterState :=
  { currentState := ExerciseState.up, repCount := 0, lastStateChange := 0,
    formFeedback := some "previous feedback" }

/-- The bicep-curl start state (`extended`) carrying a previously displayed
feedback string. -/
def stExtFb : RepCounterState :=
  { currentState := ExerciseState.extended, repCount := 0, lastStateChange := 0,
    formFeedback := some "previous feedback" }
theorem processSquatRep_step (pose : Pose) (st : RepCounterState) (now : ℚ) :
    ((processSquatRep pose st now).repCount = st.repCount ∨
      (processSquatRep pose st now).repCount = st.repCount + 1) ∧
    ((processSquatRep pose st now).repCount = st.repCount + 1 ↔
      st.currentState = ExerciseState.down ∧
      (processSquatRep pose st now).currentState = ExerciseState.up) := by
  simp only [processSquatRep]
  by_cases hv : SquatVisibilityFails pose
  · rw [if_pos hv]
    refine ⟨Or.inl rfl, ⟨fun h => by simp at h, ?_⟩⟩
    rintro ⟨h1, h2⟩
    simp [h1] at h2
  · rw [if_neg hv]
    by_cases hd : now - st.lastStateChange < 800
    · rw [if_pos hd]
      refine ⟨Or.inl rfl, ⟨fun h => by simp at h, ?_⟩⟩
      rintro ⟨h1, h2⟩
      simp [h1] at h2
    · rw [if_neg hd]
      by_cases h1 : st.currentState = ExerciseState.up ∧
          squatAvgKneeY pose + SQUAT_DOWN_THRESHOLD < squatAvgHipY pose
      · rw [if_pos h1]
        refine ⟨Or.inl rfl, ⟨fun h => by simp at h, ?_⟩⟩
        rintro ⟨hc, habs⟩
        simp at habs
      · rw [if_neg h1]
        by_cases h2 : st.currentState = ExerciseState.down ∧
            squatAvgHipY pose < squatAvgKneeY pose - SQUAT_UP_THRESHOLD
        · rw [if_pos h2]
          exact ⟨Or.inr rfl, ⟨fun _ => ⟨h2.1, rfl⟩, fun _ => rfl⟩⟩
        · rw [if_neg h2]
          refine ⟨Or.inl rfl, ⟨fun h => by simp at h, ?_⟩⟩
          rintro ⟨hc, habs⟩
          simp [hc] at habs

theorem processBicepCurlRep_step (ang : Keypoint → Keypoint → Keypoint → ℚ)
    (pose : Pose) (st : RepCounterState) (now : ℚ) :
    ((processBicepCurlRep ang pose st now).repCount = st.repCount ∨
      (processBicepCurlRep ang pose st now).repCount = st.repCount + 1) ∧
    ((processBicepCurlRep ang pose st now).repCount = st.repCount + 1 ↔
      st.currentState = ExerciseState.contracted ∧
      (processBicepCurlRep ang pose st now).currentState = ExerciseState.extended) := by
  simp only [processBicepCurlRep]
  by_cases hv : ¬CurlLeftArmVisible pose ∧ ¬CurlRightArmVisible pose
  · rw [if_pos hv]
    refine ⟨Or.inl rfl, ⟨fun h => by simp at h, ?_⟩⟩
    rintro ⟨h1, h2⟩
    simp [h1] at h2
  · rw [if_neg hv]
    by_cases hd : now - st.lastStateChange < 500
    · rw [if_pos hd]
      refine ⟨Or.inl rfl, ⟨fun h => by simp at h, ?_⟩⟩
      rintro ⟨h1, h2⟩
      simp [h1] at h2
    · rw [if_neg hd]
      by_cases h1 : st.currentState = ExerciseState.extended ∧
          curlPrimaryAngle ang pose < CONTRACTED_ANGLE
      · rw [if_pos h1]
        refine ⟨Or.inl rfl, ⟨fun h => by simp at h, ?_⟩⟩
        rintro ⟨hc, habs⟩
        simp at habs
      · rw [if_neg h1]
        by_cases h2 : st.currentState = ExerciseState.contracted ∧
            EXTENDED_ANGLE < curlPrimaryAngle ang pose
        · rw [if_pos h2]
          exact ⟨Or.inr rfl, ⟨fun _ => ⟨h2.1, rfl⟩, fun _ => rfl⟩⟩
        · rw [if_neg h2]
          refine ⟨Or.inl rfl, ⟨fun h => by simp at h, ?_⟩⟩
          rintro ⟨hc, habs⟩
          simp [hc] at habs

theorem runSquat_mono (frames : List (Pose × ℚ)) :
    ∀ st : RepCounterState, st.repCount ≤ (runSquat frames st).repCount := by
  induction frames with
  | nil => intro st; simp [runSquat]
  | cons f rest ih =>
    intro st
    have hstep := (processSquatRep_step f.1 st f.2).1
    have htail : runSquat (f :: rest) st = runSquat rest (processSquatRep f.1 st f.2) := rfl
    rw [htail]
    rcases hstep with h | h
    · have := ih (processSquatRep f.1 st f.2)
      omega
    · have := ih (processSquatRep f.1 st f.2)
      omega

theorem runCurl_mono (ang : Keypoint → Keypoint → Keypoint → ℚ) (frames : List (Pose × ℚ)) :
    ∀ st : RepCounterState, st.repCount ≤ (runCurl ang frames st).repCount := by
  induction frames with
  | nil => intro st; simp [runCurl]
  | cons f rest ih =>
    intro st
    have hstep := (processBicepCurlRep_step ang f.1 st f.2).1
    have htail : runCurl ang (f :: rest) st = runCurl ang rest (processBicepCurlRep ang f.1 st f.2) := rfl
    rw [htail]
    rcases hstep with h | h
    · have := ih (processBicepCurlRep ang f.1 st f.2)
      omega
    · have := ih (processBicepCurlRep ang f.1 st f.2)
      omega

/-- C1: for every processed frame, `repCount` either stays or increases by
exactly 1; it increases precisely when the machine takes the
closing-to-open transition (squat `down → up`, curl
`contracted → extended`) and never on the opening transition; over any
frame sequence `repCount` is non-decreasing. -/
theorem repCount_monotone_spec :
    (∀ (pose : Pose) (st : RepCounterState) (now : ℚ),
      ((processSquatRep pose st now).repCount = st.repCount ∨
        (processSquatRep pose st now).repCount = st.repCount + 1) ∧
      ((processSquatRep pose st now).repCount = st.repCount + 1 ↔
        st.currentState = ExerciseState.down ∧
        (processSquatRep pose st now).currentState = ExerciseState.up)) ∧
    (∀ (ang : Keypoint → Keypoint → Keypoint → ℚ) (pose : Pose)
        (st : RepCounterState) (now : ℚ),
      ((processBicepCurlRep ang pose st now).repCount = st.repCount ∨
        (processBicepCurlRep ang pose st now).repCount = st.repCount + 1) ∧
      ((processBicepCurlRep ang pose st now).repCount = st.repCount + 1 ↔
        st.currentState = ExerciseState.contracted ∧
        (processBicepCurlRep ang pose st now).currentState = ExerciseState.extended)) ∧
    (∀ (frames : List (Pose × ℚ)) (st : RepCounterState),
      st.repCount ≤ (runSquat frames st).repCount) ∧
    (∀ (ang : Keypoint → Keypoint → Keypoint → ℚ) (frames : List (Pose × ℚ))
        (st : RepCounterState),
      st.repCount ≤ (runCurl ang frames st).repCount) :=
  ⟨processSquatRep_step, processBicepCurlRep_step,
    fun frames st => runSquat_mono frames st,
    fun ang frames st => runCurl_mono ang frames st⟩

theorem processSquatRep_inGap (pose : Pose) (st : RepCounterState) (now : ℚ)
    (hlo : -SQUAT_UP_THRESHOLD < squatAvgHipY pose - squatAvgKneeY pose)
    (hhi : squatAvgHipY pose - squatAvgKneeY pose < SQUAT_DOWN_THRESHOLD) :
    (processSquatRep pose st now).currentState = st.currentState ∧
    (processSquatRep pose st now).repCount = st.repCount := by
  simp only [processSquatRep]
  by_cases hv : SquatVisibilityFails pose
  · rw [if_pos hv]; exact ⟨rfl, rfl⟩
  · rw [if_neg hv]
    by_cases hd : now - st.lastStateChange < 800
    · rw [if_pos hd]; exact ⟨rfl, rfl⟩
    · rw [if_neg hd]
      have h1 : ¬(st.currentState = ExerciseState.up ∧
          squatAvgKneeY pose + SQUAT_DOWN_THRESHOLD < squatAvgHipY pose) := by
        rintro ⟨-, h⟩
        linarith
      have h2 : ¬(st.currentState = ExerciseState.down ∧
          squatAvgHipY pose < squatAvgKneeY pose - SQUAT_UP_THRESHOLD) := by
        rintro ⟨-, h⟩
        linarith
      rw [if_neg h1, if_neg h2]
      exact ⟨rfl, rfl⟩

theorem curlPrimaryAngle_inGap (ang : Keypoint → Keypoint → Keypoint → ℚ) (pose : Pose)
    (hv : ¬(¬CurlLeftArmVisible pose ∧ ¬CurlRightArmVisible pose))
    (hl : CONTRACTED_ANGLE < ang (pose.keypoints 5) (pose.keypoints 7) (pose.keypoints 9) ∧
      ang (pose.keypoints 5) (pose.keypoints 7) (pose.keypoints 9) < EXTENDED_ANGLE)
    (hr : CONTRACTED_ANGLE < ang (pose.keypoints 6) (pose.keypoints 8) (pose.keypoints 10) ∧
      ang (pose.keypoints 6) (pose.keypoints 8) (pose.keypoints 10) < EXTENDED_ANGLE) :
    CONTRACTED_ANGLE < curlPrimaryAngle ang pose ∧
      curlPrimaryAngle ang pose < EXTENDED_ANGLE := by
  unfold curlPrimaryAngle curlLeftAngle curlRightAngle
  by_cases hL : CurlLeftArmVisible pose <;> by_cases hR : CurlRightArmVisible pose
  · rw [if_pos ⟨hL, hR⟩, if_pos hL, if_pos hR]
    exact ⟨lt_min hl.1 hr.1, min_lt_iff.mpr (Or.inl hl.2)⟩
  · rw [if_neg (fun h => hR h.2), if_pos hL, if_pos hL]
    exact hl
  · rw [if_neg (fun h => hL h.1), if_neg hL, if_pos hR]
    exact hr
  · exact absurd ⟨hL, hR⟩ hv

theorem processBicepCurlRep_inGap (ang : Keypoint → Keypoint → Keypoint → ℚ)
    (pose : Pose) (st : RepCounterState) (now : ℚ)
    (hl : CONTRACTED_ANGLE < ang (pose.keypoints 5) (pose.keypoints 7) (pose.keypoints 9) ∧
      ang (pose.keypoints 5) (pose.keypoints 7) (pose.keypoints 9) < EXTENDED_ANGLE)
    (hr : CONTRACTED_ANGLE < ang (pose.keypoints 6) (pose.keypoints 8) (pose.keypoints 10) ∧
      ang (pose.keypoints 6) (pose.keypoints 8) (pose.keypoints 10) < EXTENDED_ANGLE) :
    (processBicepCurlRep ang pose st now).currentState = st.currentState ∧
    (processBicepCurlRep ang pose st now).repCount = st.repCount := by
  simp only [processBicepCurlRep]
  by_cases hv : ¬CurlLeftArmVisible pose ∧ ¬CurlRightArmVisible pose
  · rw [if_pos hv]; exact ⟨rfl, rfl⟩
  · rw [if_neg hv]
    by_cases hd : now - st.lastStateChange < 500
    · rw [if_pos hd]; exact ⟨rfl, rfl⟩
    · rw [if_neg hd]
      have hb := curlPrimaryAngle_inGap ang pose hv hl hr
      have h1 : ¬(st.currentState = ExerciseState.extended ∧
          curlPrimaryAngle ang pose < CONTRACTED_ANGLE) := by
        rintro ⟨-, h⟩
        linarith [hb.1]
      have h2 : ¬(st.currentState = ExerciseState.contracted ∧
          EXTENDED_ANGLE < curlPrimaryAngle ang pose) := by
        rintro ⟨-, h⟩
        linarith [hb.2]
      rw [if_neg h1, if_neg h2]
      exact ⟨rfl, rfl⟩

/-- C2 (amended): for the `poseAnalysis.ts` machines the hysteresis
property holds: any frame sequence whose hip-knee difference stays
strictly inside `(-SQUAT_UP_THRESHOLD, SQUAT_DOWN_THRESHOLD)` (squat), or
whose elbow angles stay strictly inside
`(CONTRACTED_ANGLE, EXTENDED_ANGLE)` (curl), causes no state transition
and leaves `repCount` constant.  The lenient
`poseAnalysis/processSquatRep.ts` variant violates the claim (see the
counterexample theorem). -/
theorem hysteresis_spec :
    (∀ (frames : List (Pose × ℚ)) (st : RepCounterState),
      (∀ f ∈ frames,
        -SQUAT_UP_THRESHOLD < squatAvgHipY f.1 - squatAvgKneeY f.1 ∧
          squatAvgHipY f.1 - squatAvgKneeY f.1 < SQUAT_DOWN_THRESHOLD) →
      (runSquat frames st).currentState = st.currentState ∧
        (runSquat frames st).repCount = st.repCount) ∧
    (∀ (ang : Keypoint → Keypoint → Keypoint → ℚ) (frames : List (Pose × ℚ))
        (st : RepCounterState),
      (∀ f ∈ frames,
        (CONTRACTED_ANGLE < ang (f.1.keypoints 5) (f.1.keypoints 7) (f.1.keypoints 9) ∧
          ang (f.1.keypoints 5) (f.1.keypoints 7) (f.1.keypoints 9) < EXTENDED_ANGLE) ∧
        (CONTRACTED_ANGLE < ang (f.1.keypoints 6) (f.1.keypoints 8) (f.1.keypoints 10) ∧
          ang (f.1.keypoints 6) (f.1.keypoints 8) (f.1.keypoints 10) < EXTENDED_ANGLE)) →
      (runCurl ang frames st).currentState = st.currentState ∧
        (runCurl ang frames st).repCount = st.repCount) := by
  constructor
  · intro frames
    induction frames with
    | nil => intro st _; exact ⟨rfl, rfl⟩
    | cons f rest ih =>
      intro st hmem
      have hf := hmem f (List.mem_cons_self f rest)
      have hstep := processSquatRep_inGap f.1 st f.2 hf.1 hf.2
      have htail : runSquat (f :: rest) st = runSquat rest (processSquatRep f.1 st f.2) := rfl
      rw [htail]
      have := ih (processSquatRep f.1 st f.2) (fun g hg => hmem g (List.mem_cons_of_mem f hg))
      exact ⟨this.1.trans hstep.1, this.2.trans hstep.2⟩
  · intro ang frames
    induction frames with
    | nil => intro st _; exact ⟨rfl, rfl⟩
    | cons f rest ih =>
      intro st hmem
      have hf := hmem f (List.mem_cons_self f rest)
      have hstep := processBicepCurlRep_inGap ang f.1 st f.2 hf.1 hf.2
      have htail : runCurl ang (f :: rest) st =
        runCurl ang rest (processBicepCurlRep ang f.1 st f.2) := rfl
      rw [htail]
      have := ih (processBicepCurlRep ang f.1 st f.2) (fun g hg => hmem g (List.mem_cons_of_mem f hg))
      exact ⟨this.1.trans hstep.1, this.2.trans hstep.2⟩

unseal Rat.ofScientific Rat.add Rat.mul Rat.inv Rat.sub in
theorem hysteresis_spec_witness :
    ((runSquat [(poseGap, 1000)] stUp).currentState = stUp.currentState ∧
      (runSquat [(poseGap, 1000)] stUp).repCount = stUp.repCount) ∧
    ((runCurl (fun _ _ _ => 120) [(poseGap, 1000)] stExtFb).currentState =
        stExtFb.currentState ∧
      (runCurl (fun _ _ _ => 120) [(poseGap, 1000)] stExtFb).repCount = stExtFb.repCount) :=
  ⟨hysteresis_spec.1 [(poseGap, 1000)] stUp (by decide),
    hysteresis_spec.2 (fun _ _ _ => 120) [(poseGap, 1000)] stExtFb (by decide)⟩

unseal Rat.ofScientific Rat.add Rat.mul Rat.inv Rat.sub in
/-- C2 (counterexample): in the lenient squat variant
(`src/app/utils/poseAnalysis/processSquatRep.ts`), a fully-visible
trajectory whose hip-knee difference (0.005) lies strictly inside the gap
between the descend entry threshold (0.02) and the ascend return
threshold (-0.01) still transitions `up → down` on one frame and back
`down → up` on the next, incrementing `repCount`: hysteresis fails for
that machine. -/
theorem hysteresis_fails_loose :
    (-LOOSE_SQUAT_UP_THRESHOLD < looseAvgHipY poseShallow - looseAvgKneeY poseShallow ∧
      looseAvgHipY poseShallow - looseAvgKneeY poseShallow < LOOSE_SQUAT_DOWN_THRESHOLD) ∧
    (processSquatRepLoose poseShallow stUp 1000).currentState = ExerciseState.down ∧
    (processSquatRepLoose poseShallow
        (processSquatRepLoose poseShallow stUp 1000) 2000).repCount =
      stUp.repCount + 1 := by decide

theorem processSquatRep_debounce_id (pose : Pose) (st : RepCounterState) (now : ℚ)
    (hv : ¬SquatVisibilityFails pose) (hd : now - st.lastStateChange < 800) :
    processSquatRep pose st now = st := by
  simp only [processSquatRep]
  rw [if_neg hv, if_pos hd]

theorem processSquatRep_debounce_fields (pose : Pose) (st : RepCounterState) (now : ℚ)
    (hd : now - st.lastStateChange < 800) :
    (processSquatRep pose st now).currentState = st.currentState ∧
    (processSquatRep pose st now).repCount = st.repCount ∧
    (processSquatRep pose st now).lastStateChange = st.lastStateChange := by
  simp only [processSquatRep]
  by_cases hv : SquatVisibilityFails pose
  · rw [if_pos hv]; exact ⟨rfl, rfl, rfl⟩
  · rw [if_neg hv, if_pos hd]; exact ⟨rfl, rfl, rfl⟩

theorem processSquatRep_lastChange (pose : Pose) (st : RepCounterState) (now : ℚ) :
    (processSquatRep pose st now).currentState ≠ st.currentState →
    (processSquatRep pose st now).lastStateChange = now := by
  simp only [processSquatRep]
  by_cases hv : SquatVisibilityFails pose
  · rw [if_pos hv]; intro h; exact absurd rfl h
  · rw [if_neg hv]
    by_cases hd : now - st.lastStateChange < 800
    · rw [if_pos hd]; intro h; exact absurd rfl h
    · rw [if_neg hd]
      by_cases h1 : st.currentState = ExerciseState.up ∧
          squatAvgKneeY pose + SQUAT_DOWN_THRESHOLD < squatAvgHipY pose
      · rw [if_pos h1]
        intro h
        exact if_pos (fun he => h he)
      · rw [if_neg h1]
        by_cases h2 : st.currentState = ExerciseState.down ∧
            squatAvgHipY pose < squatAvgKneeY pose - SQUAT_UP_THRESHOLD
        · rw [if_pos h2]
          intro h
          exact if_pos (fun he => h he)
        · rw [if_neg h2]
          intro h
          exact absurd rfl h

theorem processBicepCurlRep_debounce_id (ang : Keypoint → Keypoint → Keypoint → ℚ)
    (pose : Pose) (st : RepCounterState) (now : ℚ)
    (hv : ¬(¬CurlLeftArmVisible pose ∧ ¬CurlRightArmVisible pose))
    (hd : now - st.lastStateChange < 500) :
    processBicepCurlRep ang pose st now = st := by
  simp only [processBicepCurlRep]
  rw [if_neg hv, if_pos hd]

theorem processBicepCurlRep_debounce_fields (ang : Keypoint → Keypoint → Keypoint → ℚ)
    (pose : Pose) (st : RepCounterState) (now : ℚ)
    (hd : now - st.lastStateChange < 500) :
    (processBicepCurlRep ang pose st now).currentState = st.currentState ∧
    (processBicepCurlRep ang pose st now).repCount = st.repCount ∧
    (processBicepCurlRep ang pose st now).lastStateChange = st.lastStateChange := by
  simp only [processBicepCurlRep]
  by_cases hv : ¬CurlLeftArmVisible pose ∧ ¬CurlRightArmVisible pose
  · rw [if_pos hv]; exact ⟨rfl, rfl, rfl⟩
  · rw [if_neg hv, if_pos hd]; exact ⟨rfl, rfl, rfl⟩

theorem processBicepCurlRep_lastChange (ang : Keypoint → Keypoint → Keypoint → ℚ)
    (pose : Pose) (st : RepCounterState) (now : ℚ) :
    (processBicepCurlRep ang pose st now).currentState ≠ st.currentState →
    (processBicepCurlRep ang pose st now).lastStateChange = now := by
  simp only [processBicepCurlRep]
  by_cases hv : ¬CurlLeftArmVisible pose ∧ ¬CurlRightArmVisible pose
  · rw [if_pos hv]; intro h; exact absurd rfl h
  · rw [if_neg hv]
    by_cases hd : now - st.lastStateChange < 500
    · rw [if_pos hd]; intro h; exact absurd rfl h
    · rw [if_neg hd]
      by_cases h1 : st.currentState = ExerciseState.extended ∧
          curlPrimaryAngle ang pose < CONTRACTED_ANGLE
      · rw [if_pos h1]
        intro h
        exact if_pos (fun he => h he)
      · rw [if_neg h1]
        by_cases h2 : st.currentState = ExerciseState.contracted ∧
            EXTENDED_ANGLE < curlPrimaryAngle ang pose
        · rw [if_pos h2]
          intro h
          exact if_pos (fun he => h he)
        · rw [if_neg h2]
          intro h
          exact absurd rfl h

/-- C4 (amended): a frame inside the debounce window (800ms squat, 500ms
curl) that passes the visibility check returns the input state exactly
unchanged; a frame inside the window that fails the visibility check
still leaves `currentState`, `repCount` and `lastStateChange` unchanged
but overwrites `formFeedback` with the visibility warning (the visibility
check precedes the debounce check, see the counterexample).  In
particular a transition frame stamps `lastStateChange` with its time, so
a second frame within one debounce window of a transition never produces
a second transition. -/
theorem debounce_spec :
    (∀ (pose : Pose) (st : RepCounterState) (now : ℚ),
      ¬SquatVisibilityFails pose → now - st.lastStateChange < 800 →
      processSquatRep pose st now = st) ∧
    (∀ (pose : Pose) (st : RepCounterState) (now : ℚ),
      now - st.lastStateChange < 800 →
      (processSquatRep pose st now).currentState = st.currentState ∧
      (processSquatRep pose st now).repCount = st.repCount ∧
      (processSquatRep pose st now).lastStateChange = st.lastStateChange) ∧
    (∀ (ang : Keypoint → Keypoint → Keypoint → ℚ) (pose : Pose)
        (st : RepCounterState) (now : ℚ),
      ¬(¬CurlLeftArmVisible pose ∧ ¬CurlRightArmVisible pose) →
      now - st.lastStateChange < 500 →
      processBicepCurlRep ang pose st now = st) ∧
    (∀ (ang : Keypoint → Keypoint → Keypoint → ℚ) (pose : Pose)
        (st : RepCounterState) (now : ℚ),
      now - st.lastStateChange < 500 →
      (processBicepCurlRep ang pose st now).currentState = st.currentState ∧
      (processBicepCurlRep ang pose st now).repCount = st.repCount ∧
      (processBicepCurlRep ang pose st now).lastStateChange = st.lastStateChange) ∧
    (∀ (pose1 pose2 : Pose) (st : RepCounterState) (t1 t2 : ℚ),
      (processSquatRep pose1 st t1).currentState ≠ st.currentState →
      t2 - t1 < 800 →
      (processSquatRep pose2 (processSquatRep pose1 st t1) t2).currentState =
        (processSquatRep pose1 st t1).currentState) ∧
    (∀ (ang : Keypoint → Keypoint → Keypoint → ℚ) (pose1 pose2 : Pose)
        (st : RepCounterState) (t1 t2 : ℚ),
      (processBicepCurlRep ang pose1 st t1).currentState ≠ st.currentState →
      t2 - t1 < 500 →
      (processBicepCurlRep ang pose2 (processBicepCurlRep ang pose1 st t1) t2).currentState =
        (processBicepCurlRep ang pose1 st t1).currentState) := by
  refine ⟨processSquatRep_debounce_id, processSquatRep_debounce_fields,
    processBicepCurlRep_debounce_id, processBicepCurlRep_debounce_fields, ?_, ?_⟩
  · intro pose1 pose2 st t1 t2 htrans hwin
    have hl := processSquatRep_lastChange pose1 st t1 htrans
    exact (processSquatRep_debounce_fields pose2 (processSquatRep pose1 st t1) t2
      (by rw [hl]; exact hwin)).1
  · intro ang pose1 pose2 st t1 t2 htrans hwin
    have hl := processBicepCurlRep_lastChange ang pose1 st t1 htrans
    exact (processBicepCurlRep_debounce_fields ang pose2
      (processBicepCurlRep ang pose1 st t1) t2 (by rw [hl]; exact hwin)).1

unseal Rat.ofScientific Rat.add Rat.mul Rat.inv Rat.sub in
theorem debounce_spec_witness :
    (processSquatRep poseDeep (processSquatRep poseDeep stUp 1000) 1500).currentState =
      (processSquatRep poseDeep stUp 1000).currentState :=
  debounce_spec.2.2.2.2.1 poseDeep poseDeep stUp 1000 1500 (by decide) (by decide)

unseal Rat.ofScientific Rat.add Rat.mul Rat.inv Rat.sub in
/-- C4 (counterexample): a frame 100ms after the last state change (inside
the 800ms squat debounce window) whose keypoints fail the visibility
check does not return the input `RepCounterState` unchanged — it
overwrites `formFeedback` with the visibility warning rather than
clearing expired feedback. -/
theorem debounce_claim_fails :
    ((100 : ℚ) - stUp.lastStateChange < 800) ∧
    processSquatRep poseInvisible stUp 100 ≠ stUp ∧
    (processSquatRep poseInvisible stUp 100).formFeedback =
      some "Position yourself so your hips and knees are visible" ∧
    stUp.formFeedback = none := by decide

unseal Rat.ofScientific Rat.add Rat.mul Rat.inv Rat.sub in
/-- C3 (code defect exhibited): in the lenient squat variant
(`src/app/utils/poseAnalysis/processSquatRep.ts`), the visibility early
return fires only when more than 3000ms have elapsed since the last state
change, so a frame whose every keypoint confidence (0.1) is below the 0.3
visibility threshold, arriving 1000ms after the last change, still drives
an `up -> down` transition from its untrusted coordinates, contradicting
the claim that such frames leave `currentState` unchanged.  (The
`poseAnalysis.ts` machines gate such frames unconditionally; see the
visibility conjuncts of the monotonicity and debounce developments.) -/
theorem visibility_gate_fails_loose :
    (∀ i : Fin 17, (poseInvisible.keypoints i).confidence < 0.3) ∧
    stUp.currentState = ExerciseState.up ∧
    (processSquatRepLoose poseInvisible stUp 1000).currentState = ExerciseState.down ∧
    (processSquatRepLoose poseInvisible stUp 1000).repCount = stUp.repCount := by decide

/-- C10: when a frame passes the visibility and debounce checks and no
feedback condition fires (the 3000ms feedback timer has not elapsed and
the frame is not a rep completion, which always emits feedback), the
basic bicep-curl machine returns `formFeedback = none` — discarding any
prior feedback — while the basic squat machine returns the prior
`state.formFeedback` unchanged (`formFeedback || null` versus
`formFeedback || state.formFeedback` in the source). -/
theorem feedback_retention_spec :
    (∀ (ang : Keypoint → Keypoint → Keypoint → ℚ) (pose : Pose)
        (st : RepCounterState) (now : ℚ),
      ¬(¬CurlLeftArmVisible pose ∧ ¬CurlRightArmVisible pose) →
      ¬(now - st.lastStateChange < 500) →
      ¬(3000 < now - st.lastStateChange) →
      ¬(st.currentState = ExerciseState.contracted ∧
        EXTENDED_ANGLE < curlPrimaryAngle ang pose) →
      (processBicepCurlRep ang pose st now).formFeedback = none) ∧
    (∀ (pose : Pose) (st : RepCounterState) (now : ℚ),
      ¬SquatVisibilityFails pose →
      ¬(now - st.lastStateChange < 800) →
      ¬(3000 < now - st.lastStateChange) →
      ¬(st.currentState = ExerciseState.down ∧
        squatAvgHipY pose < squatAvgKneeY pose - SQUAT_UP_THRESHOLD) →
      (processSquatRep pose st now).formFeedback = st.formFeedback) := by
  constructor
  · intro ang pose st now hv hd hn hrep
    simp only [processBicepCurlRep]
    rw [if_neg hv, if_neg hd]
    have hfbTop : ¬(curlPrimaryAngle ang pose < 40 ∧ 3000 < now - st.lastStateChange) :=
      fun hh => hn hh.2
    simp only [if_neg hn, if_neg hfbTop]
    by_cases h1 : st.currentState = ExerciseState.extended ∧
        curlPrimaryAngle ang pose < CONTRACTED_ANGLE
    · rw [if_pos h1]
      simp
    · rw [if_neg h1, if_neg hrep]
      simp
  · intro pose st now hv hd hn hrep
    simp only [processSquatRep]
    rw [if_neg hv, if_neg hd]
    have hfb0 : ¬(|(pose.keypoints 13).x - (pose.keypoints 14).x| < 0.08 ∧
        3000 < now - st.lastStateChange) := fun hh => hn hh.2
    have hank : ¬(SquatAnklesVisible pose ∧ 3000 < now - st.lastStateChange) :=
      fun hh => hn hh.2
    simp only [if_neg hfb0, if_neg hank, if_neg hn]
    by_cases h1 : st.currentState = ExerciseState.up ∧
        squatAvgKneeY pose + SQUAT_DOWN_THRESHOLD < squatAvgHipY pose
    · rw [if_pos h1]
      simp
    · rw [if_neg h1, if_neg hrep]
      simp

unseal Rat.ofScientific Rat.add Rat.mul Rat.inv Rat.sub in
theorem feedback_retention_witness :
    (processBicepCurlRep (fun _ _ _ => 120) poseGap stExtFb 1000).formFeedback = none ∧
    (processSquatRep poseGap stUpFb 1000).formFeedback = stUpFb.formFeedback :=
  ⟨feedback_retention_spec.1 (fun _ _ _ => 120) poseGap stExtFb 1000
      (by decide) (by decide) (by decide) (by decide),
    feedback_retention_spec.2 poseGap stUpFb 1000
      (by decide) (by decide) (by decide) (by decide)⟩

theorem default_min_duration_ge (prio : FeedbackPriority) :
    (1000 : ℚ) ≤ DEFAULT_MIN_DURATION prio := by
  cases prio <;> norm_num [DEFAULT_MIN_DURATION]

theorem createFeedback_effMin (msg : String) (prio : FeedbackPriority) (ts : ℚ) :
    effectiveMinDuration (createFeedback msg prio none ts) = DEFAULT_MIN_DURATION prio := by
  cases prio <;> norm_num [effectiveMinDuration, createFeedback, DEFAULT_MIN_DURATION]

/-- C5: a candidate replaces the active feedback exactly when there is no
active feedback, or the active feedback's display time has reached its
minimum display duration and the candidate's priority is at least the
active one's.  (Stated for feedback constructed by `createFeedback` with
the default duration, as everywhere in the source; the default durations
are all at least the 1000ms `minFeedbackInterval`, which therefore never
adds a constraint.)  Consequently a `critical` feedback inside its
minimum display duration is never replaced by a `helpful` or
`encouragement` candidate. -/
theorem shouldUpdateFeedback_spec :
    ∀ (msg : String) (prio : FeedbackPriority) (ts : ℚ) (cand : FormFeedback) (now : ℚ),
      shouldUpdateFeedback none cand 1000 now = true ∧
      (shouldUpdateFeedback (some (createFeedback msg prio none ts)) cand 1000 now = true ↔
        (effectiveMinDuration (createFeedback msg prio none ts) ≤ now - ts ∧
          PRIORITY_LEVELS prio ≤ PRIORITY_LEVELS cand.priority)) ∧
      (prio = FeedbackPriority.critical →
        now - ts < effectiveMinDuration (createFeedback msg prio none ts) →
        (cand.priority = FeedbackPriority.helpful ∨
          cand.priority = FeedbackPriority.encouragement) →
        shouldUpdateFeedback (some (createFeedback msg prio none ts)) cand 1000 now = false) := by
  intro msg prio ts cand now
  have hdur := createFeedback_effMin msg prio ts
  have h1000 := default_min_duration_ge prio
  have hts : (createFeedback msg prio none ts).timestamp = ts := rfl
  refine ⟨rfl, ?_, ?_⟩
  · simp only [shouldUpdateFeedback, hts, hdur]
    by_cases hlt : now - ts < DEFAULT_MIN_DURATION prio
    · rw [if_pos hlt]
      simp only [Bool.false_eq_true, false_iff]
      rintro ⟨hge, -⟩
      exact absurd hge (not_le.mpr hlt)
    · rw [if_neg hlt]
      have hn2 : ¬(now - ts < 1000) := fun hh => hlt (lt_of_lt_of_le hh h1000)
      rw [if_neg hn2]
      simp only [decide_eq_true_eq]
      exact ⟨fun h => ⟨not_lt.mp hlt, h⟩, fun h => h.2⟩
  · intro hcrit hwithin hlow
    rw [hdur] at hwithin
    simp only [shouldUpdateFeedback, hts, hdur]
    rw [if_pos hwithin]

unseal Rat.ofScientific Rat.add Rat.mul Rat.inv Rat.sub in
theorem shouldUpdateFeedback_spec_witness :
    shouldUpdateFeedback
      (some (createFeedback "Position yourself so your arms are visible"
        FeedbackPriority.critical none 0))
      (createFeedback "Continue curling upward" FeedbackPriority.helpful none 1500)
      1000 1500 = false :=
  (shouldUpdateFeedback_spec "Position yourself so your arms are visible"
    FeedbackPriority.critical 0
    (createFeedback "Continue curling upward" FeedbackPriority.helpful none 1500)
    1500).2.2 rfl (by decide) (Or.inl rfl)

/-- C6: an active feedback counts as expired exactly when its age exceeds
`max(minDisplayDuration, maxFeedbackAge)`, with `maxFeedbackAge`
instantiated at its 5000ms default as at every call site; once expired,
the `getFormFeedback` query reports `none` whatever plain feedback string
the rep state still carries. -/
theorem shouldExpireFeedback_spec :
    ∀ (f : FormFeedback) (rep : Option String) (now : ℚ),
      (shouldExpireFeedback (some f) 5000 now = true ↔
        max (effectiveMinDuration f) 5000 < now - f.timestamp) ∧
      shouldExpireFeedback none 5000 now = false ∧
      (shouldExpireFeedback (some f) 5000 now = true →
        getFormFeedback (some f) rep now = none) := by
  intro f rep now
  refine ⟨by simp [shouldExpireFeedback], rfl, ?_⟩
  intro h
  simp [getFormFeedback, h]

unseal Rat.ofScientific Rat.add Rat.mul Rat.inv Rat.sub in
theorem shouldExpireFeedback_spec_witness :
    getFormFeedback
      (some (createFeedback "Continue curling upward" FeedbackPriority.helpful none 0))
      (some "Continue curling upward") 10000 = none :=
  (shouldExpireFeedback_spec
    (createFeedback "Continue curling upward" FeedbackPriority.helpful none 0)
    (some "Continue curling upward") 10000).2.2 (by decide)

/-- C7: `processFrame` is a no-op on an empty pose sequence and a silent
no-op on an unknown exercise id; for the known ids it dispatches exactly
the first pose of the sequence to the matching state machine. -/
theorem processFrame_spec :
    ∀ (ang : Keypoint → Keypoint → Keypoint → ℚ) (st : RepCounterState) (now : ℚ),
      (∀ exerciseId : String, processFrame ang exerciseId [] st now = st) ∧
      (∀ (pose : Pose) (rest : List Pose),
        processFrame ang "squats" (pose :: rest) st now = processSquatRep pose st now) ∧
      (∀ (pose : Pose) (rest : List Pose),
        processFrame ang "bicep-curls" (pose :: rest) st now =
          processBicepCurlRep ang pose st now) ∧
      (∀ (exerciseId : String) (poses : List Pose),
        exerciseId ≠ "squats" → exerciseId ≠ "bicep-curls" →
        processFrame ang exerciseId poses st now = st) := by
  intro ang st now
  refine ⟨fun _ => rfl, fun pose rest => by simp [processFrame],
    fun pose rest => by simp [processFrame], ?_⟩
  intro exerciseId poses h1 h2
  cases poses with
  | nil => rfl
  | cons pose rest =>
    simp only [processFrame]
    rw [if_neg h1, if_neg h2]

theorem processFrame_spec_witness :
    processFrame (fun _ _ _ => 120) "push-ups" [poseGap] stUp 0 = stUp :=
  (processFrame_spec (fun _ _ _ => 120) stUp 0).2.2.2 "push-ups" [poseGap]
    (by decide) (by decide)

/-- C8: `resetCounter` is idempotent on the observable session state — a
second reset yields the same `repCount` (0), `currentState`
(`exercise.initialState`), `formFeedback` (`none`), cleared feedback
history and cleared active feedback as the first; only the reset
timestamps (`lastStateChange`, `lastFeedbackChange`), which the claim
does not list as observable, track the call time. -/
theorem resetCounter_idempotent :
    ∀ (exercise : Exercise) (n1 n2 : ℚ),
      (resetCounter exercise n2).repCount = 0 ∧
      (resetCounter exercise n2).currentState = exercise.initialState ∧
      (resetCounter exercise n2).formFeedback = none ∧
      (resetCounter exercise n2).feedbackHistory = [] ∧
      (resetCounter exercise n2).activeFeedback = none ∧
      ((resetCounter exercise n2).repCount = (resetCounter exercise n1).repCount ∧
        (resetCounter exercise n2).currentState = (resetCounter exercise n1).currentState ∧
        (resetCounter exercise n2).formFeedback = (resetCounter exercise n1).formFeedback ∧
        (resetCounter exercise n2).feedbackHistory =
          (resetCounter exercise n1).feedbackHistory ∧
        (resetCounter exercise n2).activeFeedback =
          (resetCounter exercise n1).activeFeedback) :=
  fun _ _ _ => ⟨rfl, rfl, rfl, rfl, rfl, rfl, rfl, rfl, rfl, rfl⟩

theorem pointDist_eq (p q : PointR) : pointDist p q = dist (toE p) (toE q) := by
  rw [EuclideanSpace.dist_eq, Fin.sum_univ_two]
  simp [pointDist, toE, Real.dist_eq, sq_abs]

theorem toE_injective : Function.Injective toE := by
  intro p q h
  have h0 := congrFun h 0
  have h1 := congrFun h 1
  cases p; cases q
  simp [toE] at h0 h1
  simp [h0, h1]

theorem pointDist_ne_zero {p q : PointR} (h : p ≠ q) : pointDist p q ≠ 0 := by
  rw [pointDist_eq]
  exact dist_ne_zero.mpr (fun he => h (toE_injective he))

theorem pointDist_self (p : PointR) : pointDist p p = 0 := by
  simp [pointDist]

theorem calculateAngle_cos (p1 p2 p3 : PointR) (h12 : p1 ≠ p2) (h23 : p2 ≠ p3) :
    (pointDist p2 p3 ^ 2 + pointDist p1 p2 ^ 2 - pointDist p1 p3 ^ 2) /
      (2 * pointDist p2 p3 * pointDist p1 p2) =
      Real.cos (EuclideanGeometry.angle (toE p1) (toE p2) (toE p3)) := by
  have law := EuclideanGeometry.law_cos (toE p1) (toE p2) (toE p3)
  rw [pointDist_eq p1 p3, pointDist_eq p1 p2, pointDist_eq p2 p3,
    dist_comm (toE p2) (toE p3)]
  have ha : dist (toE p3) (toE p2) ≠ 0 :=
    dist_ne_zero.mpr (fun he => h23 (toE_injective he.symm))
  have hc : dist (toE p1) (toE p2) ≠ 0 :=
    dist_ne_zero.mpr (fun he => h12 (toE_injective he))
  field_simp
  nlinarith [law]

theorem calculateAngle_nondegenerate (p1 p2 p3 : PointR) (h12 : p1 ≠ p2) (h23 : p2 ≠ p3) :
    calculateAngle p1 p2 p3 =
      some (EuclideanGeometry.angle (toE p1) (toE p2) (toE p3) * 180 / Real.pi) := by
  have ha : pointDist p2 p3 ≠ 0 := pointDist_ne_zero h23
  have hc : pointDist p1 p2 ≠ 0 := pointDist_ne_zero h12
  have hcos := calculateAngle_cos p1 p2 p3 h12 h23
  have h2ac : ¬(2 * pointDist p2 p3 * pointDist p1 p2 = 0) :=
    mul_ne_zero (mul_ne_zero two_ne_zero ha) hc
  have habs : ¬(1 < |(pointDist p2 p3 ^ 2 + pointDist p1 p2 ^ 2 - pointDist p1 p3 ^ 2) /
      (2 * pointDist p2 p3 * pointDist p1 p2)|) := by
    rw [hcos]
    exact not_lt.mpr (Real.abs_cos_le_one _)
  simp only [calculateAngle]
  rw [if_neg h2ac, if_neg habs, hcos,
    Real.arccos_cos (EuclideanGeometry.angle_nonneg _ _ _) (EuclideanGeometry.angle_le_pi _ _ _)]

theorem calculateAngle_degenerate (p1 p2 p3 : PointR) (h : p1 = p2 ∨ p2 = p3) :
    calculateAngle p1 p2 p3 = none := by
  simp only [calculateAngle]
  rcases h with h | h
  · subst h
    simp [pointDist_self]
  · subst h
    simp [pointDist_self]

theorem angle_degrees_bounds (p1 p2 p3 : PointR) :
    0 ≤ EuclideanGeometry.angle (toE p1) (toE p2) (toE p3) * 180 / Real.pi ∧
      EuclideanGeometry.angle (toE p1) (toE p2) (toE p3) * 180 / Real.pi ≤ 180 := by
  have h0 := EuclideanGeometry.angle_nonneg (toE p1) (toE p2) (toE p3)
  have hpi := EuclideanGeometry.angle_le_pi (toE p1) (toE p2) (toE p3)
  constructor
  · positivity
  · rw [div_le_iff₀ Real.pi_pos]
    nlinarith [Real.pi_pos]

/-- C9: on a non-degenerate triangle (`p1 ≠ p2`, `p2 ≠ p3`)
`calculateAngle` returns exactly the Euclidean angle at the middle vertex
`p2`, converted to degrees, and that value lies in `[0, 180]`; on
coincident points the law-of-cosines expression divides by zero, the
result is the NaN (`none`), and the defensive caller's sanitization maps
it to the 999 "unreliable" sentinel rather than any valid angle. -/
theorem calculateAngle_spec :
    ∀ p1 p2 p3 : PointR,
      (p1 ≠ p2 → p2 ≠ p3 →
        calculateAngle p1 p2 p3 =
          some (EuclideanGeometry.angle (toE p1) (toE p2) (toE p3) * 180 / Real.pi) ∧
        ∃ θ, calculateAngle p1 p2 p3 = some θ ∧ 0 ≤ θ ∧ θ ≤ 180) ∧
      (p1 = p2 ∨ p2 = p3 →
        calculateAngle p1 p2 p3 = none ∧ sanitizedArmAngle p1 p2 p3 = 999) := by
  intro p1 p2 p3
  constructor
  · intro h12 h23
    have heq := calculateAngle_nondegenerate p1 p2 p3 h12 h23
    have hb := angle_degrees_bounds p1 p2 p3
    exact ⟨heq, ⟨_, heq, hb.1, hb.2⟩⟩
  · intro h
    have heq := calculateAngle_degenerate p1 p2 p3 h
    exact ⟨heq, by simp [sanitizedArmAngle, heq]⟩

theorem calculateAngle_spec_witness :
    (calculateAngle ⟨1, 0⟩ ⟨0, 0⟩ ⟨0, 1⟩ =
      some (EuclideanGeometry.angle (toE ⟨1, 0⟩) (toE ⟨0, 0⟩) (toE ⟨0, 1⟩) * 180 / Real.pi) ∧
      ∃ θ, calculateAngle ⟨1, 0⟩ ⟨0, 0⟩ ⟨0, 1⟩ = some θ ∧ 0 ≤ θ ∧ θ ≤ 180) ∧
    (calculateAngle ⟨0, 0⟩ ⟨0, 0⟩ ⟨1, 1⟩ = none ∧
      sanitizedArmAngle ⟨0, 0⟩ ⟨0, 0⟩ ⟨1, 1⟩ = 999) :=
  ⟨(calculateAngle_spec ⟨1, 0⟩ ⟨0, 0⟩ ⟨0, 1⟩).1
      (fun h => one_ne_zero (congrArg PointR.x h))
      (fun h => one_ne_zero (congrArg PointR.y h).symm),
    (calculateAngle_spec ⟨0, 0⟩ ⟨0, 0⟩ ⟨1, 1⟩).2 (Or.inl rfl)⟩
